import Mathlib

/-!
Shallow embedding of the identity and access-control subsystem of the
scrob listening-history server (Rust sources under src/).

The relational store is modelled as an explicit state (lists of rows for
the users, api_tokens and scrobs tables together with the next
auto-assigned row ids).  Each Rust handler becomes a state-passing
function returning the updated state and either its success payload or
the error it would serialize.  Effectful collaborators are passed in as
parameters:

* freshly generated bearer tokens (auth.rs generate_token) enter as a
  string argument,
* bcrypt hashing (auth.rs hash_password) enters as a function argument,
* bcrypt verification (auth.rs verify_password) enters as a function
  argument,
* the current wall clock enters as an integer timestamp argument,
* each fallible sqlx call inside get_user_by_token takes a boolean
  fault flag telling whether that particular call fails with a storage
  error (false everywhere models a fault-free run).

Unicode character classes used by the signup validators (Rust
char::is_alphanumeric, is_lowercase, is_uppercase, is_numeric) are
bundled as a function record; the concrete instance latin1Classes below
records their exact values on the Basic Latin and Latin-1 Supplement
blocks, which covers every concrete character appearing in this
development.
-/

/-- Row of the users table (db/models.rs User plus the is_private column
selected by auth.rs get_user_by_token, cf. the schema in the spec). -/
structure UserRow where
  id : Int
  username : String
  password_hash : String
  is_admin : Bool
  is_private : Bool
  created_at : Int
deriving Repr, DecidableEq

/-- Row of the api_tokens table (db/models.rs ApiToken). -/
structure TokenRow where
  id : Int
  user_id : Int
  token : String
  label : Option String
  created_at : Int
  last_used_at : Option Int
  revoked : Bool
deriving Repr, DecidableEq

/-- Row of the scrobs table (db/models.rs Scrob). -/
structure ScrobRow where
  id : Int
  user_id : Int
  artist : String
  track : String
  album : Option String
  duration : Option Int
  timestamp : Int
  created_at : Int
deriving Repr, DecidableEq

/-- The relational store: the three tables plus the next auto-increment
ids handed out for inserted users and tokens. -/
structure Db where
  users : List UserRow
  tokens : List TokenRow
  scrobs : List ScrobRow
  nextUserId : Int
  nextTokenId : Int
deriving Repr, DecidableEq

deriving instance DecidableEq for Except

/-- SELECT ... FROM users WHERE username = name (fetch_optional). -/
def findUserByName (db : Db) (name : String) : Option UserRow :=
  db.users.find? (fun u => u.username = name)

/-- SELECT ... FROM users WHERE id = uid (fetch_optional). -/
def findUserById (db : Db) (uid : Int) : Option UserRow :=
  db.users.find? (fun u => u.id = uid)

/-- SELECT user_id FROM api_tokens WHERE token = tok AND revoked = false
(fetch_optional), the first query of auth.rs get_user_by_token. -/
def findActiveToken (db : Db) (tok : String) : Option TokenRow :=
  db.tokens.find? (fun r => r.token = tok && !r.revoked)

/-- UPDATE api_tokens SET last_used_at = now WHERE token = tok, the
second query of auth.rs get_user_by_token. -/
def touchTokens (db : Db) (tok : String) (now : Int) : Db :=
  { db with
    tokens := db.tokens.map (fun r =>
      if r.token = tok then { r with last_used_at := some now } else r) }

/-- INSERT INTO api_tokens (user_id, token, label, created_at, revoked)
VALUES (uid, tok, label, now, false); last_used_at is left NULL and the
row receives the next auto-increment id. -/
def insertToken (db : Db) (uid : Int) (tok : String) (label : Option String)
    (now : Int) : Db × TokenRow :=
  let row : TokenRow :=
    { id := db.nextTokenId, user_id := uid, token := tok, label := label,
      created_at := now, last_used_at := none, revoked := false }
  ({ db with tokens := db.tokens ++ [row], nextTokenId := db.nextTokenId + 1 }, row)

/-- Opaque sqlx::Error: the handlers never inspect the error beyond
formatting it, so a single constructor suffices. -/
inductive SqlxError
  | fault
deriving Repr, DecidableEq

/-- auth.rs get_user_by_token.  Three sqlx calls run in order: select
the active token row, update last_used_at, select the owning user.  The
flags f1 f2 f3 tell whether the corresponding call fails with a storage
error; a failing call performs no mutation and the ? operator of the
source propagates the error immediately. -/
def get_user_by_token (db : Db) (now : Int) (tok : String)
    (f1 f2 f3 : Bool) : Db × Except SqlxError (Option UserRow) :=
  if f1 then (db, .error .fault)
  else
    match findActiveToken db tok with
    | none => (db, .ok none)
    | some row =>
      if f2 then (db, .error .fault)
      else
        let db2 := touchTokens db tok now
        if f3 then (db2, .error .fault)
        else (db2, .ok (findUserById db2 row.user_id))

/-- Rust str::trim over the character list: drop whitespace from both
ends.  The Unicode White_Space set is modelled by its ASCII subset,
which is exact on every header this development evaluates. -/
def rustTrim (l : List Char) : List Char :=
  ((l.dropWhile Char.isWhitespace).reverse.dropWhile Char.isWhitespace).reverse

/-- auth.rs extract_token_from_header: strip the exact prefix
"Bearer " (7 characters) and trim surrounding whitespace from the
remainder. -/
def extract_token_from_header (h : String) : Option String :=
  if "Bearer ".data.isPrefixOf h.data then some ⟨rustTrim (h.data.drop 7)⟩
  else none

/-- auth.rs AuthUser. -/
structure AuthUser where
  id : Int
  username : String
  is_admin : Bool
  is_private : Bool
deriving Repr, DecidableEq

/-- auth.rs AuthUser::from_headers.  The header argument is the value of
the authorization header when present; HTTP status codes are plain
numerals.  A missing or malformed header and an unresolved token give
401; a storage error from get_user_by_token gives 500. -/
def AuthUser.from_headers (db : Db) (now : Int) (header : Option String)
    (f1 f2 f3 : Bool) : Db × Except Nat AuthUser :=
  match header with
  | none => (db, .error 401)
  | some h =>
    match extract_token_from_header h with
    | none => (db, .error 401)
    | some tok =>
      match get_user_by_token db now tok f1 f2 f3 with
      | (db2, .error _) => (db2, .error 500)
      | (db2, .ok none) => (db2, .error 401)
      | (db2, .ok (some u)) =>
        (db2, .ok { id := u.id, username := u.username,
                    is_admin := u.is_admin, is_private := u.is_private })

/-- main.rs graphql_handler, authentication part: resolve the current
user from the authorization header; a storage error from
get_user_by_token is logged and swallowed, leaving the request
unauthenticated (current_user = none). -/
def graphqlCurrentUser (db : Db) (now : Int) (header : Option String)
    (f1 f2 f3 : Bool) : Db × Option UserRow :=
  match header with
  | none => (db, none)
  | some h =>
    match extract_token_from_header h with
    | none => (db, none)
    | some tok =>
      match get_user_by_token db now tok f1 f2 f3 with
      | (db2, .error _) => (db2, none)
      | (db2, .ok u) => (db2, u)

/-- graphql/context.rs GraphQLContext::require_user. -/
def require_user (cur : Option UserRow) : Except String UserRow :=
  match cur with
  | none => .error "Authentication required"
  | some u => .ok u

/-- Unicode character classification functions of the Rust standard
library that the signup validators call (char::is_alphanumeric,
char::is_lowercase, char::is_uppercase, char::is_numeric).  They are
passed to the handlers as a record so that the embedding does not have
to reproduce the full Unicode tables. -/
structure CharClasses where
  isAlphanumeric : Char → Bool
  isLowercase : Char → Bool
  isUppercase : Char → Bool
  isNumeric : Char → Bool

/-- The Rust character classes restricted to the Basic Latin and
Latin-1 Supplement blocks, where their values are recorded exactly from
the Unicode character database (Alphabetic or Numeric for
is_alphanumeric, the Lowercase and Uppercase properties, and the
Numeric property which holds of the superscripts and vulgar fractions
of Latin-1).  Code points above U+00FF map to false; every concrete
character evaluated in this development lies in the recorded range. -/
def latin1Classes : CharClasses where
  isAlphanumeric c :=
    let n := c.toNat
    decide ((48 ≤ n ∧ n ≤ 57) ∨ (65 ≤ n ∧ n ≤ 90) ∨ (97 ≤ n ∧ n ≤ 122) ∨
      n = 0xAA ∨ n = 0xB2 ∨ n = 0xB3 ∨ n = 0xB5 ∨ n = 0xB9 ∨ n = 0xBA ∨
      (0xBC ≤ n ∧ n ≤ 0xBE) ∨ (0xC0 ≤ n ∧ n ≤ 0xFF ∧ n ≠ 0xD7 ∧ n ≠ 0xF7))
  isLowercase c :=
    let n := c.toNat
    decide ((97 ≤ n ∧ n ≤ 122) ∨ n = 0xAA ∨ n = 0xB5 ∨ n = 0xBA ∨
      (0xDF ≤ n ∧ n ≤ 0xF6) ∨ (0xF8 ≤ n ∧ n ≤ 0xFF))
  isUppercase c :=
    let n := c.toNat
    decide ((65 ≤ n ∧ n ≤ 90) ∨ (0xC0 ≤ n ∧ n ≤ 0xD6) ∨ (0xD8 ≤ n ∧ n ≤ 0xDE))
  isNumeric c :=
    let n := c.toNat
    decide ((48 ≤ n ∧ n ≤ 57) ∨ n = 0xB2 ∨ n = 0xB3 ∨ n = 0xB9 ∨
      (0xBC ≤ n ∧ n ≤ 0xBE))

/-- routes/auth.rs LoginRequest / SignupRequest (identical shape). -/
structure LoginRequest where
  username : String
  password : String
deriving Repr, DecidableEq

/-- routes/auth.rs LoginResponse. -/
structure LoginResponse where
  token : String
  username : String
  is_admin : Bool
deriving Repr, DecidableEq

/-- routes/auth.rs login.  The verify argument models bcrypt
verify_password on a fault-free run (its Err branch would yield a 500
instead); newTok models the generate_token result; HTTP errors are a
status numeral paired with the serialized error message. -/
def RoutesAuth.login (verify : String → String → Bool) (newTok : String)
    (db : Db) (now : Int) (req : LoginRequest) :
    Db × Except (Nat × String) LoginResponse :=
  match findUserByName db req.username with
  | none => (db, .error (401, "Invalid username or password"))
  | some user =>
    if !(verify req.password user.password_hash) then
      (db, .error (401, "Invalid username or password"))
    else
      let (db1, _) := insertToken db user.id newTok (some "session") now
      (db1, .ok { token := newTok, username := user.username,
                  is_admin := user.is_admin })

/-- routes/auth.rs signup.  uc models the Rust character classes,
hashFn models bcrypt hash_password on a fault-free run, newTok models
generate_token.  Username and password lengths are the Rust str::len,
that is the UTF-8 byte size.  The inserted user's is_admin value is the
SQL subquery NOT EXISTS(SELECT 1 FROM users) evaluated against the
table as it stands at the insert. -/
def RoutesAuth.signup (uc : CharClasses) (hashFn : String → String)
    (newTok : String) (db : Db) (now : Int) (req : LoginRequest) :
    Db × Except (Nat × String) LoginResponse :=
  if req.username.utf8ByteSize < 3 ∨ req.username.utf8ByteSize > 20 then
    (db, .error (400, "Username must be between 3 and 20 characters"))
  else if !(req.username.data.all (fun c => uc.isAlphanumeric c || c == '_')) then
    (db, .error (400, "Username can only contain letters, numbers, and underscores"))
  else if req.password.utf8ByteSize < 8 then
    (db, .error (400, "Password must be at least 8 characters"))
  else if req.password.utf8ByteSize > 72 then
    (db, .error (400, "Password must be at most 72 characters"))
  else
    let has_lowercase := req.password.data.any uc.isLowercase
    let has_uppercase := req.password.data.any uc.isUppercase
    let has_digit := req.password.data.any uc.isNumeric
    if !has_lowercase || !has_uppercase || !has_digit then
      (db, .error (400, "Password must contain at least one lowercase letter, one uppercase letter, and one number"))
    else
      match findUserByName db req.username with
      | some _ => (db, .error (409, "Username already exists"))
      | none =>
        let pwHash := hashFn req.password
        let user : UserRow :=
          { id := db.nextUserId, username := req.username,
            password_hash := pwHash, is_admin := db.users.isEmpty,
            is_private := false, created_at := now }
        let db1 := { db with users := db.users ++ [user],
                             nextUserId := db.nextUserId + 1 }
        let (db2, _) := insertToken db1 user.id newTok (some "session") now
        (db2, .ok { token := newTok, username := user.username,
                    is_admin := user.is_admin })

/-- graphql/types.rs User (the GraphQL representation). -/
structure GqlUser where
  id : String
  username : String
  is_admin : Bool
  created_at : Int
deriving Repr, DecidableEq

/-- graphql/types.rs From of db User for GraphQL User. -/
def userToGql (u : UserRow) : GqlUser :=
  { id := toString u.id, username := u.username, is_admin := u.is_admin,
    created_at := u.created_at }

/-- graphql/types.rs AuthPayload. -/
structure AuthPayload where
  token : String
  user : GqlUser
deriving Repr, DecidableEq

/-- graphql/mutation.rs login.  GraphQL collapses errors into a single
message channel. -/
def MutationRoot.login (verify : String → String → Bool) (newTok : String)
    (db : Db) (now : Int) (username password : String) :
    Db × Except String AuthPayload :=
  match findUserByName db username with
  | none => (db, .error "Invalid username or password")
  | some user =>
    if !(verify password user.password_hash) then
      (db, .error "Invalid username or password")
    else
      let (db1, _) := insertToken db user.id newTok (some "UI session") now
      (db1, .ok { token := newTok, user := userToGql user })

/-- graphql/types.rs ApiToken, the GraphQL-side token record.  The
token field exists on the Rust struct but carries the graphql skip
attr, so it is not part of the GraphQL schema. -/
structure ApiTokenGql where
  id : String
  label : Option String
  created_at : Int
  last_used_at : Option Int
  revoked : Bool
  token : Option String
deriving Repr, DecidableEq

/-- graphql/types.rs From of db ApiToken for GraphQL ApiToken: the raw
token value is dropped (token := none) on every conversion. -/
def apiTokenFromRow (t : TokenRow) : ApiTokenGql :=
  { id := toString t.id, label := t.label, created_at := t.created_at,
    last_used_at := t.last_used_at, revoked := t.revoked, token := none }

/-- Wire values of the GraphQL serializer. -/
inductive GqlValue
  | str (s : String)
  | int (n : Int)
  | bool (b : Bool)
  | null
deriving Repr, DecidableEq

/-- The fields the derived GraphQL object for ApiToken exposes on the
wire.  The derive renames fields to camelCase and omits the token field
entirely because of its graphql skip attr. -/
def apiTokenGqlFields (t : ApiTokenGql) : List (String × GqlValue) :=
  [("id", .str t.id),
   ("label", match t.label with | some s => .str s | none => .null),
   ("createdAt", .int t.created_at),
   ("lastUsedAt", match t.last_used_at with | some n => .int n | none => .null),
   ("revoked", .bool t.revoked)]

/-- graphql/mutation.rs create_api_token.  cur is the current user of
the GraphQL context, tokVal models generate_token.  After the insert
the handler re-selects the row by last_insert_rowid, converts it (which
drops the raw value) and then puts the raw value back into the struct
field. -/
def MutationRoot.create_api_token (db : Db) (cur : Option UserRow)
    (tokVal : String) (now : Int) (label : Option String) :
    Db × Except String ApiTokenGql :=
  match cur with
  | none => (db, .error "Authentication required")
  | some user =>
    let (db1, row) := insertToken db user.id tokVal label now
    match db1.tokens.find? (fun r => r.id = row.id) with
    | none => (db1, .error "row not found")
    | some r =>
      (db1, .ok { apiTokenFromRow r with token := some tokVal })

/-- graphql/mutation.rs revoke_api_token.  The numeric id has already
been parsed from the GraphQL ID string (a parse failure would yield the
Invalid token ID error before any query).  The UPDATE hits exactly the
rows with this id owned by the caller, and the handler reports whether
any row was affected. -/
def MutationRoot.revoke_api_token (db : Db) (cur : Option UserRow)
    (tokenId : Int) : Db × Except String Bool :=
  match cur with
  | none => (db, .error "Authentication required")
  | some user =>
    let affected : Nat := db.tokens.countP (fun r => r.id = tokenId ∧ r.user_id = user.id)
    let db1 := { db with tokens := db.tokens.map (fun r =>
      if r.id = tokenId ∧ r.user_id = user.id then { r with revoked := true } else r) }
    (db1, .ok (decide (0 < affected)))

/-- routes/admin.rs delete_user.  Resolves the caller, requires the
admin flag, rejects self-deletion, then deletes the target's scrobs,
tokens and finally the user row, reporting 404 when no user row was
deleted (the earlier deletions have already happened in that case: the
source runs them without a transaction). -/
def RoutesAdmin.delete_user (db : Db) (now : Int) (header : Option String)
    (f1 f2 f3 : Bool) (target : Int) : Db × Except (Nat × String) Nat :=
  match AuthUser.from_headers db now header f1 f2 f3 with
  | (db1, .error status) => (db1, .error (status, "Unauthorized"))
  | (db1, .ok auth) =>
    if !auth.is_admin then
      (db1, .error (403, "Admin access required"))
    else if auth.id = target then
      (db1, .error (400, "Cannot delete yourself"))
    else
      let db2 := { db1 with scrobs := db1.scrobs.filter (fun s => s.user_id ≠ target) }
      let db3 := { db2 with tokens := db2.tokens.filter (fun r => r.user_id ≠ target) }
      let affected : Nat := db3.users.countP (fun u => u.id = target)
      let db4 := { db3 with users := db3.users.filter (fun u => u.id ≠ target) }
      if affected = 0 then (db4, .error (404, "User not found"))
      else (db4, .ok 204)

/-- routes/admin.rs toggle_admin.  Resolves the caller, requires the
admin flag, rejects changing one's own admin status, then updates the
target row, reporting 404 when no row matched. -/
def RoutesAdmin.toggle_admin (db : Db) (now : Int) (header : Option String)
    (f1 f2 f3 : Bool) (target : Int) (flag : Bool) :
    Db × Except (Nat × String) Nat :=
  match AuthUser.from_headers db now header f1 f2 f3 with
  | (db1, .error status) => (db1, .error (status, "Unauthorized"))
  | (db1, .ok auth) =>
    if !auth.is_admin then
      (db1, .error (403, "Admin access required"))
    else if auth.id = target then
      (db1, .error (400, "Cannot change your own admin status"))
    else
      let affected : Nat := db1.users.countP (fun u => u.id = target)
      let db2 := { db1 with users := db1.users.map (fun u =>
        if u.id = target then { u with is_admin := flag } else u) }
      if affected = 0 then (db2, .error (404, "User not found"))
      else (db2, .ok 200)

/-- routes/settings.rs update_privacy, storage part after the caller is
resolved: UPDATE users SET is_private = flag WHERE id = caller. -/
def updatePrivacyDb (db : Db) (callerId : Int) (flag : Bool) : Db :=
  { db with users := db.users.map (fun u =>
    if u.id = callerId then { u with is_private := flag } else u) }

/-- No row of the api_tokens table carries this token string in the
non-revoked state: the holder cannot authenticate with it. -/
def noActiveToken (db : Db) (tok : String) : Prop :=
  ∀ r ∈ db.tokens, r.token = tok → r.revoked = true

/-- One state transition of the server: any handler above run against
the store with arbitrary inputs, except that tokens generated for
inserts differ from the distinguished string avoid (the Token Generator
contract: a generated value never repeats an already issued one). -/
inductive Step (avoid : String) : Db → Db → Prop
  | rest_login (db : Db) (verify : String → String → Bool) (newTok : String)
      (now : Int) (req : LoginRequest) (hfresh : newTok ≠ avoid) :
      Step avoid db (RoutesAuth.login verify newTok db now req).1
  | rest_signup (db : Db) (uc : CharClasses) (hashFn : String → String)
      (newTok : String) (now : Int) (req : LoginRequest) (hfresh : newTok ≠ avoid) :
      Step avoid db (RoutesAuth.signup uc hashFn newTok db now req).1
  | gql_login (db : Db) (verify : String → String → Bool) (newTok : String)
      (now : Int) (uname pw : String) (hfresh : newTok ≠ avoid) :
      Step avoid db (MutationRoot.login verify newTok db now uname pw).1
  | create_token (db : Db) (cur : Option UserRow) (tokVal : String)
      (now : Int) (label : Option String) (hfresh : tokVal ≠ avoid) :
      Step avoid db (MutationRoot.create_api_token db cur tokVal now label).1
  | revoke_token (db : Db) (cur : Option UserRow) (tokenId : Int) :
      Step avoid db (MutationRoot.revoke_api_token db cur tokenId).1
  | resolve (db : Db) (now : Int) (tok : String) (f1 f2 f3 : Bool) :
      Step avoid db (get_user_by_token db now tok f1 f2 f3).1
  | admin_delete (db : Db) (now : Int) (header : Option String)
      (f1 f2 f3 : Bool) (target : Int) :
      Step avoid db (RoutesAdmin.delete_user db now header f1 f2 f3 target).1
  | admin_toggle (db : Db) (now : Int) (header : Option String)
      (f1 f2 f3 : Bool) (target : Int) (flag : Bool) :
      Step avoid db (RoutesAdmin.toggle_admin db now header f1 f2 f3 target flag).1
  | set_privacy (db : Db) (callerId : Int) (flag : Bool) :
      Step avoid db (updatePrivacyDb db callerId flag)
  | scrobs_write (db : Db) (s2 : List ScrobRow) :
      Step avoid db { db with scrobs := s2 }

/-- Any number of handler runs, none of which generates avoid afresh. -/
def Reachable (avoid : String) : Db → Db → Prop :=
  Relation.ReflTransGen (Step avoid)

/-- Stand-in for bcrypt hash_password in concrete runs. -/
def hashH : String → String := fun _ => "H"

/-- Stand-in for bcrypt verify_password that rejects everything, for
concrete wrong-password runs. -/
def verifyNever : String → String → Bool := fun _ _ => false

/-- Concrete fixture: the first user, an administrator. -/
def aliceRow : UserRow :=
  { id := 1, username := "alice", password_hash := "H", is_admin := true,
    is_private := false, created_at := 0 }

/-- Concrete fixture: a second, non-administrator user. -/
def bobRow : UserRow :=
  { id := 2, username := "bob", password_hash := "H", is_admin := false,
    is_private := false, created_at := 0 }

/-- Concrete fixture: an active session token owned by alice. -/
def aliceTokenRow : TokenRow :=
  { id := 1, user_id := 1, token := "tok_alice", label := some "session",
    created_at := 0, last_used_at := none, revoked := false }

/-- The empty store. -/
def db0 : Db :=
  { users := [], tokens := [], scrobs := [], nextUserId := 1, nextTokenId := 1 }

/-- Store holding alice and her active token. -/
def dbAlice : Db :=
  { users := [aliceRow], tokens := [aliceTokenRow], scrobs := [],
    nextUserId := 2, nextTokenId := 2 }

/-- Store holding alice (admin) with her token, and bob. -/
def dbTwo : Db :=
  { users := [aliceRow, bobRow], tokens := [aliceTokenRow], scrobs := [],
    nextUserId := 3, nextTokenId := 2 }

/-- dbTwo after a resolution of tok_alice at time 5 touched the token. -/
def dbTwoTouched : Db :=
  { users := [aliceRow, bobRow],
    tokens := [{ aliceTokenRow with last_used_at := some 5 }],
    scrobs := [], nextUserId := 3, nextTokenId := 2 }

/-- The resolved identity of alice. -/
def aliceAuth : AuthUser :=
  { id := 1, username := "alice", is_admin := true, is_private := false }

/-! Preservation of revokedness of a token string across the handlers. -/

theorem noActive_insertToken {db : Db} {avoid : String} {uid : Int}
    {tok : String} {lbl : Option String} {now : Int}
    (h : noActiveToken db avoid) (hfresh : tok ≠ avoid) :
    noActiveToken (insertToken db uid tok lbl now).1 avoid := by
  intro r hr htok
  simp only [insertToken, List.mem_append, List.mem_singleton] at hr
  rcases hr with hr | hr
  · exact h r hr htok
  · subst hr
    simp only at htok
    exact absurd htok hfresh

theorem noActive_touchTokens {db : Db} {avoid tok : String} {now : Int}
    (h : noActiveToken db avoid) :
    noActiveToken (touchTokens db tok now) avoid := by
  intro r hr htok
  simp only [touchTokens, List.mem_map] at hr
  obtain ⟨s, hs, hsr⟩ := hr
  by_cases hst : s.token = tok
  · rw [if_pos hst] at hsr
    subst hsr
    exact h s hs htok
  · rw [if_neg hst] at hsr
    subst hsr
    exact h s hs htok

theorem noActive_getUserByToken {db : Db} {avoid : String} {now : Int}
    {tok : String} {f1 f2 f3 : Bool} (h : noActiveToken db avoid) :
    noActiveToken (get_user_by_token db now tok f1 f2 f3).1 avoid := by
  unfold get_user_by_token
  split
  · exact h
  · rcases hf : findActiveToken db tok with _ | row <;> simp only [hf]
    · exact h
    · split
      · exact h
      · split
        · exact noActive_touchTokens h
        · exact noActive_touchTokens h

theorem noActive_fromHeaders {db : Db} {avoid : String} {now : Int}
    {header : Option String} {f1 f2 f3 : Bool} (h : noActiveToken db avoid) :
    noActiveToken (AuthUser.from_headers db now header f1 f2 f3).1 avoid := by
  unfold AuthUser.from_headers
  cases header with
  | none => exact h
  | some hd =>
    cases hex : extract_token_from_header hd with
    | none => simp only [hex]; exact h
    | some tok =>
      simp only [hex]
      have hg := @noActive_getUserByToken db avoid now tok f1 f2 f3 h
      rcases hgu : get_user_by_token db now tok f1 f2 f3 with ⟨db2, r⟩
      rw [hgu] at hg
      rcases r with e | u
      · exact hg
      · rcases u with _ | u <;> exact hg

theorem noActive_restLogin {db : Db} {avoid : String}
    {verify : String → String → Bool} {newTok : String} {now : Int}
    {req : LoginRequest} (h : noActiveToken db avoid) (hfresh : newTok ≠ avoid) :
    noActiveToken (RoutesAuth.login verify newTok db now req).1 avoid := by
  unfold RoutesAuth.login
  rcases findUserByName db req.username with _ | user
  · exact h
  · cases hv : verify req.password user.password_hash
    · simp only [hv, Bool.not_false, if_true]
      exact h
    · simp only [hv, Bool.not_true, Bool.false_eq_true, if_false]
      exact noActive_insertToken h hfresh

theorem noActive_restSignup {db : Db} {avoid : String} {uc : CharClasses}
    {hashFn : String → String} {newTok : String} {now : Int}
    {req : LoginRequest} (h : noActiveToken db avoid) (hfresh : newTok ≠ avoid) :
    noActiveToken (RoutesAuth.signup uc hashFn newTok db now req).1 avoid := by
  unfold RoutesAuth.signup
  split
  · exact h
  split
  · exact h
  split
  · exact h
  split
  · exact h
  dsimp only
  split
  · exact h
  rcases findUserByName db req.username with _ | u
  · exact noActive_insertToken h hfresh
  · exact h

theorem noActive_gqlLogin {db : Db} {avoid : String}
    {verify : String → String → Bool} {newTok : String} {now : Int}
    {uname pw : String} (h : noActiveToken db avoid) (hfresh : newTok ≠ avoid) :
    noActiveToken (MutationRoot.login verify newTok db now uname pw).1 avoid := by
  unfold MutationRoot.login
  rcases findUserByName db uname with _ | user
  · exact h
  · cases hv : verify pw user.password_hash
    · simp only [hv, Bool.not_false, if_true]
      exact h
    · simp only [hv, Bool.not_true, Bool.false_eq_true, if_false]
      exact noActive_insertToken h hfresh

theorem noActive_createToken {db : Db} {avoid : String} {cur : Option UserRow}
    {tokVal : String} {now : Int} {label : Option String}
    (h : noActiveToken db avoid) (hfresh : tokVal ≠ avoid) :
    noActiveToken (MutationRoot.create_api_token db cur tokVal now label).1 avoid := by
  unfold MutationRoot.create_api_token
  rcases cur with _ | user
  · exact h
  · dsimp only
    split
    · exact noActive_insertToken h hfresh
    · exact noActive_insertToken h hfresh

theorem noActive_revokeToken {db : Db} {avoid : String} {cur : Option UserRow}
    {tokenId : Int} (h : noActiveToken db avoid) :
    noActiveToken (MutationRoot.revoke_api_token db cur tokenId).1 avoid := by
  unfold MutationRoot.revoke_api_token
  rcases cur with _ | user
  · exact h
  · intro r hr htok
    simp only [List.mem_map] at hr
    obtain ⟨s, hs, hsr⟩ := hr
    by_cases hc : s.id = tokenId ∧ s.user_id = user.id
    · rw [if_pos hc] at hsr
      subst hsr
      rfl
    · rw [if_neg hc] at hsr
      subst hsr
      exact h s hs htok

theorem noActive_filterTokens {db : Db} {avoid : String} {p : TokenRow → Bool}
    (h : noActiveToken db avoid) :
    noActiveToken { db with tokens := db.tokens.filter p } avoid := by
  intro r hr htok
  exact h r (List.mem_of_mem_filter hr) htok

theorem noActive_deleteUser {db : Db} {avoid : String} {now : Int}
    {header : Option String} {f1 f2 f3 : Bool} {target : Int}
    (h : noActiveToken db avoid) :
    noActiveToken (RoutesAdmin.delete_user db now header f1 f2 f3 target).1 avoid := by
  unfold RoutesAdmin.delete_user
  split
  · rename_i db1 st heq
    have hfh := @noActive_fromHeaders db avoid now header f1 f2 f3 h
    rw [heq] at hfh
    exact hfh
  · rename_i db1 auth heq
    have hfh := @noActive_fromHeaders db avoid now header f1 f2 f3 h
    rw [heq] at hfh
    split
    · exact hfh
    split
    · exact hfh
    dsimp only
    split
    · intro r hr htok
      exact hfh r (List.mem_of_mem_filter hr) htok
    · intro r hr htok
      exact hfh r (List.mem_of_mem_filter hr) htok

theorem noActive_toggleAdmin {db : Db} {avoid : String} {now : Int}
    {header : Option String} {f1 f2 f3 : Bool} {target : Int} {flag : Bool}
    (h : noActiveToken db avoid) :
    noActiveToken (RoutesAdmin.toggle_admin db now header f1 f2 f3 target flag).1 avoid := by
  unfold RoutesAdmin.toggle_admin
  split
  · rename_i db1 st heq
    have hfh := @noActive_fromHeaders db avoid now header f1 f2 f3 h
    rw [heq] at hfh
    exact hfh
  · rename_i db1 auth heq
    have hfh := @noActive_fromHeaders db avoid now header f1 f2 f3 h
    rw [heq] at hfh
    split
    · exact hfh
    split
    · exact hfh
    dsimp only
    split
    · exact hfh
    · exact hfh

theorem noActive_updatePrivacy {db : Db} {avoid : String} {callerId : Int}
    {flag : Bool} (h : noActiveToken db avoid) :
    noActiveToken (updatePrivacyDb db callerId flag) avoid := by
  intro r hr htok
  exact h r hr htok

theorem step_preserves_noActive {avoid : String} {db db' : Db}
    (hs : Step avoid db db') (h : noActiveToken db avoid) :
    noActiveToken db' avoid := by
  cases hs with
  | rest_login v nt now req hf => exact noActive_restLogin h hf
  | rest_signup uc hf0 nt now req hf => exact noActive_restSignup h hf
  | gql_login v nt now un pw hf => exact noActive_gqlLogin h hf
  | create_token cur tv now lbl hf => exact noActive_createToken h hf
  | revoke_token cur tid => exact noActive_revokeToken h
  | resolve now tok f1 f2 f3 => exact noActive_getUserByToken h
  | admin_delete now hd f1 f2 f3 tg => exact noActive_deleteUser h
  | admin_toggle now hd f1 f2 f3 tg fl => exact noActive_toggleAdmin h
  | set_privacy cid fl => exact noActive_updatePrivacy h
  | scrobs_write s2 => exact fun r hr htok => h r hr htok

theorem reachable_preserves_noActive {avoid : String} {db db' : Db}
    (hre : Reachable avoid db db') (h : noActiveToken db avoid) :
    noActiveToken db' avoid := by
  induction hre with
  | refl => exact h
  | tail _ hstep ih => exact step_preserves_noActive hstep ih

theorem findActiveToken_eq_none {db : Db} {tok : String}
    (h : noActiveToken db tok) : findActiveToken db tok = none := by
  unfold findActiveToken
  rw [List.find?_eq_none]
  intro r hr
  by_cases ht : r.token = tok
  · simp [ht, h r hr ht]
  · simp [ht]

theorem get_user_by_token_of_noActive {db : Db} {tok : String} (now : Int)
    (h : noActiveToken db tok) :
    get_user_by_token db now tok false false false = (db, .ok none) := by
  unfold get_user_by_token
  simp [findActiveToken_eq_none h]

/-- C1: token resolution returns none when no active row with the
string exists (never issued, or revoked), returns the owning user when
an active row exists, and once a revocation succeeds for the row
carrying the string, every later resolution returns none in every
state the handlers can reach without the generator reissuing that
string. -/
theorem token_resolution_and_revocation :
    (∀ (db : Db) (now : Int) (tok : String), noActiveToken db tok →
      get_user_by_token db now tok false false false = (db, .ok none))
    ∧ (∀ (db : Db) (now : Int) (tok : String) (row : TokenRow) (u : UserRow),
      findActiveToken db tok = some row →
      findUserById db row.user_id = some u →
      get_user_by_token db now tok false false false
          = (touchTokens db tok now, .ok (some u))
        ∧ u.id = row.user_id ∧ row.token = tok ∧ row.revoked = false)
    ∧ (∀ (db : Db) (u : UserRow) (tid : Int) (tok : String) (row : TokenRow)
        (db2 : Db),
      row ∈ db.tokens → row.id = tid → row.user_id = u.id → row.token = tok →
      (∀ r ∈ db.tokens, r.token = tok → r.id = tid ∧ r.user_id = u.id) →
      (MutationRoot.revoke_api_token db (some u) tid).2 = .ok true
        ∧ (Reachable tok (MutationRoot.revoke_api_token db (some u) tid).1 db2 →
          ∀ now : Int,
            get_user_by_token db2 now tok false false false = (db2, .ok none))) := by
  refine ⟨?_, ?_, ?_⟩
  · intro db now tok h
    exact get_user_by_token_of_noActive now h
  · intro db now tok row u hact hu
    have hprop := List.find?_some hact
    have htok : row.token = tok := by
      have := (Bool.and_eq_true _ _).mp hprop
      exact of_decide_eq_true this.1
    have hrev : row.revoked = false := by
      have := (Bool.and_eq_true _ _).mp hprop
      simpa using this.2
    have hu2 : db.users.find? (fun w => decide (w.id = row.user_id)) = some u := hu
    have hpu := List.find?_some hu2
    have hid : u.id = row.user_id := by simpa using hpu
    refine ⟨?_, hid, htok, hrev⟩
    unfold get_user_by_token
    simp only [if_false, Bool.false_eq_true]
    rw [hact]
    have husers : findUserById (touchTokens db tok now) row.user_id
        = findUserById db row.user_id := rfl
    simp [husers, hu]
  · intro db u tid tok row db2 hmem hid hown htok huniq
    constructor
    · unfold MutationRoot.revoke_api_token
      simp
      exact ⟨row, hmem, hid, hown⟩
    · intro hre now
      have hrev : noActiveToken (MutationRoot.revoke_api_token db (some u) tid).1 tok := by
        intro r hr hrtok
        unfold MutationRoot.revoke_api_token at hr
        simp only [List.mem_map] at hr
        obtain ⟨s, hs, hsr⟩ := hr
        by_cases hc : s.id = tid ∧ s.user_id = u.id
        · rw [if_pos hc] at hsr
          subst hsr
          rfl
        · rw [if_neg hc] at hsr
          subst hsr
          exact absurd (huniq s hs hrtok) hc
      exact get_user_by_token_of_noActive now (reachable_preserves_noActive hre hrev)

/-- Witness for C1: in the store holding alice and her active token
tok_alice, alice's revocation of token id 1 succeeds, and resolving
tok_alice in the resulting store returns none. -/
theorem token_resolution_and_revocation_witness :
    (MutationRoot.revoke_api_token dbAlice (some aliceRow) 1).2 = .ok true
    ∧ get_user_by_token (MutationRoot.revoke_api_token dbAlice (some aliceRow) 1).1
        5 "tok_alice" false false false
      = ((MutationRoot.revoke_api_token dbAlice (some aliceRow) 1).1, .ok none) := by
  have h := token_resolution_and_revocation.2.2 dbAlice aliceRow 1 "tok_alice"
    aliceTokenRow (MutationRoot.revoke_api_token dbAlice (some aliceRow) 1).1
    (by decide) rfl rfl rfl (by decide)
  exact ⟨h.1, h.2 Relation.ReflTransGen.refl 5⟩

/-- C4: revoking a token id that does not belong to the caller, whether
the id exists under another owner or not at all, returns false and
leaves the store, hence every revoked flag, unchanged: both cases
produce the identical result. -/
theorem revoke_foreign_token_returns_false
    (db : Db) (u : UserRow) (tid : Int)
    (h : ∀ r ∈ db.tokens, ¬(r.id = tid ∧ r.user_id = u.id)) :
    MutationRoot.revoke_api_token db (some u) tid = (db, .ok false) := by
  unfold MutationRoot.revoke_api_token
  have hcount : db.tokens.countP
      (fun r => decide (r.id = tid ∧ r.user_id = u.id)) = 0 :=
    List.countP_eq_zero.mpr (fun r hr => by simpa using h r hr)
  have hmap : db.tokens.map (fun r =>
      if r.id = tid ∧ r.user_id = u.id then { r with revoked := true } else r)
      = db.tokens := by
    conv_rhs => rw [← List.map_id db.tokens]
    exact List.map_congr_left (fun r hr => by rw [if_neg (h r hr)]; rfl)
  simp [hcount, hmap]
  intro r hr h1
  exact fun h2 => h r hr ⟨h1, h2⟩

/-- Witness for C4: bob's token id 1 belongs to alice, so alice exists
as owner but the revocation by bob fails and the store is unchanged;
the missing id 99 behaves identically. -/
theorem revoke_foreign_token_returns_false_witness :
    MutationRoot.revoke_api_token dbTwo (some bobRow) 1 = (dbTwo, .ok false)
    ∧ MutationRoot.revoke_api_token dbTwo (some bobRow) 99 = (dbTwo, .ok false) := by
  exact ⟨revoke_foreign_token_returns_false dbTwo bobRow 1 (by decide),
    revoke_foreign_token_returns_false dbTwo bobRow 99 (by decide)⟩

/-- C3: for toggle_admin and delete_user on target T, a resolved
non-admin caller is denied with 403; an admin caller whose own id
equals T is denied (400, self-action blocked); an admin caller with a
different id passes the authorization checks, the outcome then being
only the storage outcome: success when the target row exists, 404 when
it does not. -/
theorem admin_ops_authorization
    (db db1 : Db) (now : Int) (header : Option String) (f1 f2 f3 : Bool)
    (auth : AuthUser) (target : Int) (flag : Bool)
    (hres : AuthUser.from_headers db now header f1 f2 f3 = (db1, .ok auth)) :
    (auth.is_admin = false →
      RoutesAdmin.delete_user db now header f1 f2 f3 target
          = (db1, .error (403, "Admin access required"))
      ∧ RoutesAdmin.toggle_admin db now header f1 f2 f3 target flag
          = (db1, .error (403, "Admin access required")))
    ∧ (auth.is_admin = true → auth.id = target →
      RoutesAdmin.delete_user db now header f1 f2 f3 target
          = (db1, .error (400, "Cannot delete yourself"))
      ∧ RoutesAdmin.toggle_admin db now header f1 f2 f3 target flag
          = (db1, .error (400, "Cannot change your own admin status")))
    ∧ (auth.is_admin = true → auth.id ≠ target →
      ((∃ w ∈ db1.users, w.id = target) →
        (RoutesAdmin.delete_user db now header f1 f2 f3 target).2 = .ok 204
        ∧ (RoutesAdmin.toggle_admin db now header f1 f2 f3 target flag).2 = .ok 200)
      ∧ ((∀ w ∈ db1.users, w.id ≠ target) →
        (RoutesAdmin.delete_user db now header f1 f2 f3 target).2
            = .error (404, "User not found")
        ∧ (RoutesAdmin.toggle_admin db now header f1 f2 f3 target flag).2
            = .error (404, "User not found"))) := by
  refine ⟨?_, ?_, ?_⟩
  · intro ha
    constructor
    · unfold RoutesAdmin.delete_user
      rw [hres]
      simp [ha]
    · unfold RoutesAdmin.toggle_admin
      rw [hres]
      simp [ha]
  · intro ha hself
    constructor
    · unfold RoutesAdmin.delete_user
      rw [hres]
      simp [ha, hself]
    · unfold RoutesAdmin.toggle_admin
      rw [hres]
      simp [ha, hself]
  · intro ha hne
    constructor
    · intro hex
      have hpos : 0 < db1.users.countP (fun w => decide (w.id = target)) := by
        obtain ⟨w, hw, hwid⟩ := hex
        exact List.countP_pos_iff.mpr ⟨w, hw, by simp [hwid]⟩
      have hnz := Nat.pos_iff_ne_zero.mp hpos
      constructor
      · unfold RoutesAdmin.delete_user
        rw [hres]
        simp [ha, hne, hnz]
      · unfold RoutesAdmin.toggle_admin
        rw [hres]
        simp [ha, hne, hnz]
    · intro hall
      have hz : db1.users.countP (fun w => decide (w.id = target)) = 0 :=
        List.countP_eq_zero.mpr (fun w hw => by simp [hall w hw])
      constructor
      · unfold RoutesAdmin.delete_user
        rw [hres]
        simp [ha, hne, hz]
      · unfold RoutesAdmin.toggle_admin
        rw [hres]
        simp [ha, hne, hz]

/-- Witness for C3: alice (admin, id 1) authenticated by her token acts
on bob (id 2): the checks pass and both operations succeed. -/
theorem admin_ops_authorization_witness :
    (RoutesAdmin.delete_user dbTwo 5 (some "Bearer tok_alice") false false false 2).2
        = .ok 204
    ∧ (RoutesAdmin.toggle_admin dbTwo 5 (some "Bearer tok_alice") false false false 2 true).2
        = .ok 200 := by
  have h := admin_ops_authorization dbTwo dbTwoTouched 5 (some "Bearer tok_alice")
    false false false aliceAuth 2 true (by decide)
  exact (h.2.2 rfl (by decide)).1 ⟨bobRow, by decide, rfl⟩

/-- C5: a successful signup inserts a user whose is_admin flag is the
value of the emptiness predicate over the users table at the insert,
and reports that flag back: true exactly when no user row existed, so
the first user of an empty system is an administrator and every later
one is not. -/
theorem signup_first_user_admin
    (uc : CharClasses) (hashFn : String → String) (newTok : String)
    (db : Db) (now : Int) (req : LoginRequest) (db2 : Db) (resp : LoginResponse)
    (h : RoutesAuth.signup uc hashFn newTok db now req = (db2, .ok resp)) :
    resp.is_admin = db.users.isEmpty
    ∧ db2.users = db.users ++
        [{ id := db.nextUserId, username := req.username,
           password_hash := hashFn req.password, is_admin := db.users.isEmpty,
           is_private := false, created_at := now }] := by
  unfold RoutesAuth.signup at h
  split at h
  · exact absurd (congrArg Prod.snd h) (by simp)
  split at h
  · exact absurd (congrArg Prod.snd h) (by simp)
  split at h
  · exact absurd (congrArg Prod.snd h) (by simp)
  split at h
  · exact absurd (congrArg Prod.snd h) (by simp)
  dsimp only at h
  split at h
  · exact absurd (congrArg Prod.snd h) (by simp)
  rcases hf : findUserByName db req.username with _ | w
  · rw [hf] at h
    injection h with h1 h2
    injection h2 with h3
    subst h3
    subst h1
    exact ⟨rfl, rfl⟩
  · rw [hf] at h
    exact absurd (congrArg Prod.snd h) (by simp)

/-- Witness for C5: a first signup on the empty store yields an
administrator, a second signup on the store already holding alice
yields a regular user. -/
theorem signup_first_user_admin_witness :
    ({ token := "t1", username := "alice", is_admin := true } : LoginResponse).is_admin
        = db0.users.isEmpty
    ∧ ({ token := "t2", username := "bob", is_admin := false } : LoginResponse).is_admin
        = dbAlice.users.isEmpty := by
  constructor
  · exact (signup_first_user_admin latin1Classes hashH "t1" db0 0
      { username := "alice", password := "Abcdef12" }
      { users := [aliceRow],
        tokens := [{ id := 1, user_id := 1, token := "t1", label := some "session",
                     created_at := 0, last_used_at := none, revoked := false }],
        scrobs := [], nextUserId := 2, nextTokenId := 2 }
      { token := "t1", username := "alice", is_admin := true } (by decide)).1
  · exact (signup_first_user_admin latin1Classes hashH "t2" dbAlice 0
      { username := "bob", password := "Abcdef12" }
      { users := [aliceRow, bobRow],
        tokens := [aliceTokenRow,
          { id := 2, user_id := 2, token := "t2", label := some "session",
            created_at := 0, last_used_at := none, revoked := false }],
        scrobs := [], nextUserId := 3, nextTokenId := 3 }
      { token := "t2", username := "bob", is_admin := false } (by decide)).1

/-- C6: a login attempt with an unknown username and one with a known
username but a rejected password produce the very same error on both
surfaces: 401 with the message Invalid username or password on the REST
route, the identical single message on GraphQL, so the two runs are
indistinguishable to the caller. -/
theorem login_username_enumeration_resistant
    (verify : String → String → Bool) (t1 t2 : String) (db : Db) (now : Int)
    (r1 r2 : LoginRequest) (u : UserRow)
    (h1 : findUserByName db r1.username = none)
    (h2 : findUserByName db r2.username = some u)
    (h3 : verify r2.password u.password_hash = false) :
    RoutesAuth.login verify t1 db now r1
        = (db, .error (401, "Invalid username or password"))
    ∧ RoutesAuth.login verify t2 db now r2
        = (db, .error (401, "Invalid username or password"))
    ∧ RoutesAuth.login verify t1 db now r1 = RoutesAuth.login verify t2 db now r2
    ∧ MutationRoot.login verify t1 db now r1.username r1.password
        = (db, .error "Invalid username or password")
    ∧ MutationRoot.login verify t2 db now r2.username r2.password
        = (db, .error "Invalid username or password") := by
  have e1 : RoutesAuth.login verify t1 db now r1
      = (db, .error (401, "Invalid username or password")) := by
    unfold RoutesAuth.login
    rw [h1]
  have e2 : RoutesAuth.login verify t2 db now r2
      = (db, .error (401, "Invalid username or password")) := by
    unfold RoutesAuth.login
    rw [h2]
    simp [h3]
  have e4 : MutationRoot.login verify t1 db now r1.username r1.password
      = (db, .error "Invalid username or password") := by
    unfold MutationRoot.login
    rw [h1]
  have e5 : MutationRoot.login verify t2 db now r2.username r2.password
      = (db, .error "Invalid username or password") := by
    unfold MutationRoot.login
    rw [h2]
    simp [h3]
  exact ⟨e1, e2, by rw [e1, e2], e4, e5⟩

/-- Witness for C6: against the store holding alice, the attempts
login(nosuchuser, x) and login(alice, wrong) with a verifier rejecting
the pair produce the identical error. -/
theorem login_username_enumeration_resistant_witness :
    RoutesAuth.login verifyNever "t1" dbAlice 0 { username := "nosuchuser", password := "x" }
        = (dbAlice, .error (401, "Invalid username or password"))
    ∧ RoutesAuth.login verifyNever "t2" dbAlice 0 { username := "alice", password := "wrong" }
        = (dbAlice, .error (401, "Invalid username or password")) := by
  have h := login_username_enumeration_resistant verifyNever "t1" "t2" dbAlice 0
    { username := "nosuchuser", password := "x" }
    { username := "alice", password := "wrong" } aliceRow
    (by decide) (by decide) rfl
  exact ⟨h.1, h.2.1⟩

/-- Counterexample to C2: alice's token is active and alice exists, yet
when the last_used_at update fails, get_user_by_token returns the
storage error instead of the owning user: the touch is not best-effort
in the source, its failure is propagated by the ? operator. -/
theorem touch_failure_changes_outcome_counterexample :
    findActiveToken dbAlice "tok_alice" = some aliceTokenRow
    ∧ findUserById dbAlice aliceTokenRow.user_id = some aliceRow
    ∧ (get_user_by_token dbAlice 9 "tok_alice" false true false).2
        = .error .fault := by
  exact ⟨by decide, by decide, by decide⟩

/-- C2 as amended: for an active token, a failure of the touch step
makes get_user_by_token fail with the storage error (leaving the store
untouched), and the REST resolver maps this to a 500 response rather
than authenticating the request. -/
theorem touch_failure_propagates
    (db : Db) (now : Int) (tok : String) (row : TokenRow) (hdr : String)
    (hact : findActiveToken db tok = some row)
    (hex : extract_token_from_header hdr = some tok) :
    get_user_by_token db now tok false true false = (db, .error .fault)
    ∧ AuthUser.from_headers db now (some hdr) false true false
        = (db, .error 500) := by
  have e1 : get_user_by_token db now tok false true false
      = (db, .error .fault) := by
    unfold get_user_by_token
    rw [hact]
    simp
  refine ⟨e1, ?_⟩
  unfold AuthUser.from_headers
  dsimp only
  rw [hex]
  dsimp only
  rw [e1]

/-- Witness for the amended C2 at the concrete store of alice. -/
theorem touch_failure_propagates_witness :
    get_user_by_token dbAlice 9 "tok_alice" false true false
        = (dbAlice, .error .fault)
    ∧ AuthUser.from_headers dbAlice 9 (some "Bearer tok_alice") false true false
        = (dbAlice, .error 500) := by
  exact touch_failure_propagates dbAlice 9 "tok_alice" aliceTokenRow
    "Bearer tok_alice" (by decide) (by decide)

/-- C10: when the bearer-token resolution fails with a storage error,
the GraphQL handler swallows the error and proceeds with an
unauthenticated context, so a protected resolver reports
Authentication required; the REST resolver instead turns the very same
failure into a 500. -/
theorem graphql_swallows_auth_storage_error
    (db db2 : Db) (now : Int) (hdr tok : String) (f1 f2 f3 : Bool)
    (e : SqlxError)
    (hex : extract_token_from_header hdr = some tok)
    (hfail : get_user_by_token db now tok f1 f2 f3 = (db2, .error e)) :
    graphqlCurrentUser db now (some hdr) f1 f2 f3 = (db2, none)
    ∧ require_user (graphqlCurrentUser db now (some hdr) f1 f2 f3).2
        = .error "Authentication required"
    ∧ MutationRoot.revoke_api_token db2
        (graphqlCurrentUser db now (some hdr) f1 f2 f3).2 0
        = (db2, .error "Authentication required")
    ∧ AuthUser.from_headers db now (some hdr) f1 f2 f3 = (db2, .error 500) := by
  have e1 : graphqlCurrentUser db now (some hdr) f1 f2 f3 = (db2, none) := by
    unfold graphqlCurrentUser
    dsimp only
    rw [hex]
    dsimp only
    rw [hfail]
  have e2 : AuthUser.from_headers db now (some hdr) f1 f2 f3
      = (db2, .error 500) := by
    unfold AuthUser.from_headers
    dsimp only
    rw [hex]
    dsimp only
    rw [hfail]
  refine ⟨e1, ?_, ?_, e2⟩
  · rw [e1]
    rfl
  · rw [e1]
    rfl

/-- Witness for C10: the very first lookup faults on the empty store;
GraphQL proceeds unauthenticated while REST returns 500. -/
theorem graphql_swallows_auth_storage_error_witness :
    graphqlCurrentUser db0 0 (some "Bearer x") true false false = (db0, none)
    ∧ AuthUser.from_headers db0 0 (some "Bearer x") true false false
        = (db0, .error 500) := by
  have h := graphql_swallows_auth_storage_error db0 db0 0 "Bearer x" "x"
    true false false .fault (by decide) (by decide)
  exact ⟨h.1, h.2.2.2⟩

/-- C7: on a successful create_api_token the resolver stores the raw
value in the struct field (as the source comment announces), but the
wire representation of the GraphQL ApiToken object carries only the
fields id, label, createdAt, lastUsedAt and revoked: the skip attr
removes the token field from the schema, so the raw value never reaches
the creation response, and every conversion of a stored row drops the
raw value as well. -/
theorem create_api_token_raw_value_never_serialized
    (db : Db) (u : UserRow) (tokVal : String) (now : Int)
    (label : Option String) (db1 : Db) (api : ApiTokenGql)
    (h : MutationRoot.create_api_token db (some u) tokVal now label
        = (db1, .ok api)) :
    api.token = some tokVal
    ∧ (apiTokenGqlFields api).map Prod.fst
        = ["id", "label", "createdAt", "lastUsedAt", "revoked"]
    ∧ (∀ t : TokenRow, (apiTokenFromRow t).token = none) := by
  refine ⟨?_, rfl, fun t => rfl⟩
  unfold MutationRoot.create_api_token at h
  dsimp only at h
  split at h
  · exact absurd (congrArg Prod.snd h) (by simp)
  · injection h with h1 h2
    injection h2 with h3
    subst h3
    rfl

/-- Witness for C7: creating a token for alice returns the struct with
the raw value while the serialized field list omits it. -/
theorem create_api_token_raw_value_never_serialized_witness :
    ({ id := "2", label := some "cli", created_at := 7, last_used_at := none,
       revoked := false, token := some "newtok" } : ApiTokenGql).token
        = some "newtok"
    ∧ (apiTokenGqlFields
        { id := "2", label := some "cli", created_at := 7, last_used_at := none,
          revoked := false, token := some "newtok" }).map Prod.fst
        = ["id", "label", "createdAt", "lastUsedAt", "revoked"] := by
  have h := create_api_token_raw_value_never_serialized dbAlice aliceRow
    "newtok" 7 (some "cli")
    { dbAlice with
      tokens := dbAlice.tokens ++
        [{ id := 2, user_id := 1, token := "newtok", label := some "cli",
           created_at := 7, last_used_at := none, revoked := false }],
      nextTokenId := 3 }
    { id := "2", label := some "cli", created_at := 7, last_used_at := none,
      revoked := false, token := some "newtok" } (by decide)
  exact ⟨h.1, h.2.1⟩

/-- Counterexample to C8: the username abé is 3 characters long and
contains a character that is neither an ASCII letter, an ASCII digit
nor an underscore, yet signup does not fail with a validation error: it
succeeds and inserts the user, because the source checks Rust
char::is_alphanumeric, which accepts the Unicode letter é. -/
theorem username_ascii_only_counterexample :
    ("abé".data.any (fun c => !(c.isAlpha || c.isDigit || c == '_'))) = true
    ∧ "abé".data.length = 3
    ∧ (RoutesAuth.signup latin1Classes hashH "tk" db0 0
        { username := "abé", password := "Abcdef12" }).2
      = .ok { token := "tk", username := "abé", is_admin := true }
    ∧ (RoutesAuth.signup latin1Classes hashH "tk" db0 0
        { username := "abé", password := "Abcdef12" }).1 ≠ db0 := by
  exact ⟨by decide, by decide, by decide, by decide⟩

/-- C8 as amended: signup fails with one of the two username validation
errors, leaving the store untouched, exactly when the username's UTF-8
byte length lies outside 3..20 or some character is neither
alphanumeric in the sense of Rust char::is_alphanumeric (Unicode, not
ASCII) nor an underscore. -/
theorem username_validation_characterization
    (uc : CharClasses) (hashFn : String → String) (newTok : String)
    (db : Db) (now : Int) (req : LoginRequest) :
    (((RoutesAuth.signup uc hashFn newTok db now req).2
        = .error (400, "Username must be between 3 and 20 characters")
      ∨ (RoutesAuth.signup uc hashFn newTok db now req).2
        = .error (400, "Username can only contain letters, numbers, and underscores"))
      ↔ (req.username.utf8ByteSize < 3 ∨ req.username.utf8ByteSize > 20
        ∨ ∃ c ∈ req.username.data, ¬(uc.isAlphanumeric c = true ∨ c = '_')))
    ∧ ((req.username.utf8ByteSize < 3 ∨ req.username.utf8ByteSize > 20
        ∨ ∃ c ∈ req.username.data, ¬(uc.isAlphanumeric c = true ∨ c = '_')) →
      (RoutesAuth.signup uc hashFn newTok db now req).1 = db) := by
  by_cases hlen : req.username.utf8ByteSize < 3 ∨ req.username.utf8ByteSize > 20
  · have hres : RoutesAuth.signup uc hashFn newTok db now req
        = (db, .error (400, "Username must be between 3 and 20 characters")) := by
      unfold RoutesAuth.signup
      rw [if_pos hlen]
    constructor
    · rw [hres]
      constructor
      · intro _
        rcases hlen with h | h
        · exact Or.inl h
        · exact Or.inr (Or.inl h)
      · intro _
        exact Or.inl rfl
    · intro _
      rw [hres]
  · by_cases hchars : req.username.data.all
        (fun c => uc.isAlphanumeric c || c == '_') = true
    · have hnoviol : ¬(req.username.utf8ByteSize < 3 ∨ req.username.utf8ByteSize > 20
          ∨ ∃ c ∈ req.username.data, ¬(uc.isAlphanumeric c = true ∨ c = '_')) := by
        intro hv
        rcases hv with h | h | ⟨c, hc, hbad⟩
        · exact hlen (Or.inl h)
        · exact hlen (Or.inr h)
        · have := List.all_eq_true.mp hchars c hc
          rcases Bool.or_eq_true _ _ |>.mp this with h1 | h1
          · exact hbad (Or.inl h1)
          · exact hbad (Or.inr (by simpa using h1))
      have hok : ¬((RoutesAuth.signup uc hashFn newTok db now req).2
            = .error (400, "Username must be between 3 and 20 characters")
          ∨ (RoutesAuth.signup uc hashFn newTok db now req).2
            = .error (400, "Username can only contain letters, numbers, and underscores")) := by
        unfold RoutesAuth.signup
        rw [if_neg hlen, if_neg (by simp [hchars])]
        dsimp only
        split
        · simp
        split
        · simp
        split
        · simp
        rcases findUserByName db req.username with _ | w
        · simp
        · simp
      exact ⟨iff_of_false hok hnoviol, fun hv => absurd hv hnoviol⟩
    · have hallf : req.username.data.all
          (fun c => uc.isAlphanumeric c || c == '_') = false := by
        cases hq : req.username.data.all (fun c => uc.isAlphanumeric c || c == '_')
        · rfl
        · exact absurd hq hchars
      have hres : RoutesAuth.signup uc hashFn newTok db now req
          = (db, .error (400, "Username can only contain letters, numbers, and underscores")) := by
        unfold RoutesAuth.signup
        rw [if_neg hlen, if_pos (by rw [hallf]; rfl)]
      have hviol : ∃ c ∈ req.username.data,
          ¬(uc.isAlphanumeric c = true ∨ c = '_') := by
        have hex2 : ∃ c ∈ req.username.data,
            ¬((uc.isAlphanumeric c || c == '_') = true) := by
          by_contra hno
          push_neg at hno
          exact hchars (List.all_eq_true.mpr hno)
        obtain ⟨c, hc, hbadb⟩ := hex2
        refine ⟨c, hc, ?_⟩
        intro hor
        apply hbadb
        rcases hor with h | h
        · simp [h]
        · simp [h]
      constructor
      · rw [hres]
        constructor
        · intro _
          exact Or.inr (Or.inr hviol)
        · intro _
          exact Or.inr rfl
      · intro _
        rw [hres]

/-- Witness for the amended C8: the two-character username ab is
rejected with a username validation error and the store is untouched,
while validUser_1 passes the username check. -/
theorem username_validation_characterization_witness :
    (((RoutesAuth.signup latin1Classes hashH "tk" db0 0
          { username := "ab", password := "Abcdef12" }).2
        = .error (400, "Username must be between 3 and 20 characters")
      ∨ (RoutesAuth.signup latin1Classes hashH "tk" db0 0
          { username := "ab", password := "Abcdef12" }).2
        = .error (400, "Username can only contain letters, numbers, and underscores"))
      ∧ (RoutesAuth.signup latin1Classes hashH "tk" db0 0
          { username := "ab", password := "Abcdef12" }).1 = db0)
    ∧ ¬((RoutesAuth.signup latin1Classes hashH "tk" db0 0
          { username := "validUser_1", password := "Abcdef12" }).2
        = .error (400, "Username must be between 3 and 20 characters")
      ∨ (RoutesAuth.signup latin1Classes hashH "tk" db0 0
          { username := "validUser_1", password := "Abcdef12" }).2
        = .error (400, "Username can only contain letters, numbers, and underscores")) := by
  have h1 := username_validation_characterization latin1Classes hashH "tk" db0 0
    { username := "ab", password := "Abcdef12" }
  have h2 := username_validation_characterization latin1Classes hashH "tk" db0 0
    { username := "validUser_1", password := "Abcdef12" }
  refine ⟨⟨h1.1.mpr (Or.inl (by decide)), h1.2 (Or.inl (by decide))⟩, ?_⟩
  intro hc
  exact absurd (h2.1.mp hc) (by decide)

/-- Counterexample to C9: the password aA½½½½½½ contains no digit at
all (½ is the vulgar fraction one half), so by the claim signup must
fail with a validation error; the source instead accepts it, because
Rust char::is_numeric holds of every Unicode Numeric character, ½
included. -/
theorem password_digit_counterexample :
    ("aA½½½½½½".data.all (fun c => !c.isDigit)) = true
    ∧ (RoutesAuth.signup latin1Classes hashH "tk" db0 0
        { username := "alice", password := "aA½½½½½½" }).2
      = .ok { token := "tk", username := "alice", is_admin := true } := by
  exact ⟨by decide, by decide⟩

/-- C9 as amended: with a username passing its checks, signup fails
with one of the three password validation errors, leaving the store
untouched, exactly when the password's UTF-8 byte length lies outside
8..72 or it lacks a character of one of the Rust classes is_lowercase,
is_uppercase, is_numeric (Unicode classes: any Numeric character
satisfies the third, not only digits). -/
theorem password_validation_characterization
    (uc : CharClasses) (hashFn : String → String) (newTok : String)
    (db : Db) (now : Int) (req : LoginRequest)
    (hlen : ¬(req.username.utf8ByteSize < 3 ∨ req.username.utf8ByteSize > 20))
    (hchars : req.username.data.all
      (fun c => uc.isAlphanumeric c || c == '_') = true) :
    (((RoutesAuth.signup uc hashFn newTok db now req).2
        = .error (400, "Password must be at least 8 characters")
      ∨ (RoutesAuth.signup uc hashFn newTok db now req).2
        = .error (400, "Password must be at most 72 characters")
      ∨ (RoutesAuth.signup uc hashFn newTok db now req).2
        = .error (400, "Password must contain at least one lowercase letter, one uppercase letter, and one number"))
      ↔ (req.password.utf8ByteSize < 8 ∨ req.password.utf8ByteSize > 72
        ∨ req.password.data.any uc.isLowercase = false
        ∨ req.password.data.any uc.isUppercase = false
        ∨ req.password.data.any uc.isNumeric = false))
    ∧ ((req.password.utf8ByteSize < 8 ∨ req.password.utf8ByteSize > 72
        ∨ req.password.data.any uc.isLowercase = false
        ∨ req.password.data.any uc.isUppercase = false
        ∨ req.password.data.any uc.isNumeric = false) →
      (RoutesAuth.signup uc hashFn newTok db now req).1 = db) := by
  by_cases p8 : req.password.utf8ByteSize < 8
  · have hres : RoutesAuth.signup uc hashFn newTok db now req
        = (db, .error (400, "Password must be at least 8 characters")) := by
      unfold RoutesAuth.signup
      rw [if_neg hlen, if_neg (by simp [hchars]), if_pos p8]
    refine ⟨⟨fun _ => Or.inl p8, fun _ => by rw [hres]; exact Or.inl rfl⟩,
      fun _ => by rw [hres]⟩
  · by_cases p72 : req.password.utf8ByteSize > 72
    · have hres : RoutesAuth.signup uc hashFn newTok db now req
          = (db, .error (400, "Password must be at most 72 characters")) := by
        unfold RoutesAuth.signup
        rw [if_neg hlen, if_neg (by simp [hchars]), if_neg p8, if_pos p72]
      refine ⟨⟨fun _ => Or.inr (Or.inl p72),
        fun _ => by rw [hres]; exact Or.inr (Or.inl rfl)⟩,
        fun _ => by rw [hres]⟩
    · by_cases pcomp : (!req.password.data.any uc.isLowercase
          || !req.password.data.any uc.isUppercase
          || !req.password.data.any uc.isNumeric) = true
      · have hres : RoutesAuth.signup uc hashFn newTok db now req
            = (db, .error (400, "Password must contain at least one lowercase letter, one uppercase letter, and one number")) := by
          unfold RoutesAuth.signup
          rw [if_neg hlen, if_neg (by simp [hchars]), if_neg p8, if_neg p72]
          dsimp only
          rw [if_pos pcomp]
        have hrhs : req.password.utf8ByteSize < 8 ∨ req.password.utf8ByteSize > 72
            ∨ req.password.data.any uc.isLowercase = false
            ∨ req.password.data.any uc.isUppercase = false
            ∨ req.password.data.any uc.isNumeric = false := by
          rcases (Bool.or_eq_true _ _).mp pcomp with h | h
          · rcases (Bool.or_eq_true _ _).mp h with h1 | h1
            · exact Or.inr (Or.inr (Or.inl (by simpa using h1)))
            · exact Or.inr (Or.inr (Or.inr (Or.inl (by simpa using h1))))
          · exact Or.inr (Or.inr (Or.inr (Or.inr (by simpa using h))))
        refine ⟨⟨fun _ => hrhs,
          fun _ => by rw [hres]; exact Or.inr (Or.inr rfl)⟩,
          fun _ => by rw [hres]⟩
      · have hnoviol : ¬(req.password.utf8ByteSize < 8
            ∨ req.password.utf8ByteSize > 72
            ∨ req.password.data.any uc.isLowercase = false
            ∨ req.password.data.any uc.isUppercase = false
            ∨ req.password.data.any uc.isNumeric = false) := by
          intro hv
          rcases hv with h | h | h | h | h
          · exact p8 h
          · exact p72 h
          · exact pcomp (by simp [h])
          · exact pcomp (by simp [h])
          · exact pcomp (by simp [h])
        have hok : ¬((RoutesAuth.signup uc hashFn newTok db now req).2
              = .error (400, "Password must be at least 8 characters")
            ∨ (RoutesAuth.signup uc hashFn newTok db now req).2
              = .error (400, "Password must be at most 72 characters")
            ∨ (RoutesAuth.signup uc hashFn newTok db now req).2
              = .error (400, "Password must contain at least one lowercase letter, one uppercase letter, and one number")) := by
          unfold RoutesAuth.signup
          rw [if_neg hlen, if_neg (by simp [hchars]), if_neg p8, if_neg p72]
          dsimp only
          rw [if_neg pcomp]
          rcases findUserByName db req.username with _ | w
          · simp
          · simp
        exact ⟨iff_of_false hok hnoviol, fun hv => absurd hv hnoviol⟩

/-- Witness for the amended C9: alllowercase1, nodigitsHere and
Short1A are rejected by the password policy while Abcdef12 passes. -/
theorem password_validation_characterization_witness :
    ((RoutesAuth.signup latin1Classes hashH "tk" db0 0
        { username := "alice", password := "alllowercase1" }).2
        = .error (400, "Password must be at least 8 characters")
      ∨ (RoutesAuth.signup latin1Classes hashH "tk" db0 0
        { username := "alice", password := "alllowercase1" }).2
        = .error (400, "Password must be at most 72 characters")
      ∨ (RoutesAuth.signup latin1Classes hashH "tk" db0 0
        { username := "alice", password := "alllowercase1" }).2
        = .error (400, "Password must contain at least one lowercase letter, one uppercase letter, and one number"))
    ∧ ((RoutesAuth.signup latin1Classes hashH "tk" db0 0
        { username := "alice", password := "nodigitsHere" }).2
        = .error (400, "Password must be at least 8 characters")
      ∨ (RoutesAuth.signup latin1Classes hashH "tk" db0 0
        { username := "alice", password := "nodigitsHere" }).2
        = .error (400, "Password must be at most 72 characters")
      ∨ (RoutesAuth.signup latin1Classes hashH "tk" db0 0
        { username := "alice", password := "nodigitsHere" }).2
        = .error (400, "Password must contain at least one lowercase letter, one uppercase letter, and one number"))
    ∧ ((RoutesAuth.signup latin1Classes hashH "tk" db0 0
        { username := "alice", password := "Short1A" }).2
        = .error (400, "Password must be at least 8 characters")
      ∨ (RoutesAuth.signup latin1Classes hashH "tk" db0 0
        { username := "alice", password := "Short1A" }).2
        = .error (400, "Password must be at most 72 characters")
      ∨ (RoutesAuth.signup latin1Classes hashH "tk" db0 0
        { username := "alice", password := "Short1A" }).2
        = .error (400, "Password must contain at least one lowercase letter, one uppercase letter, and one number"))
    ∧ ¬((RoutesAuth.signup latin1Classes hashH "tk" db0 0
        { username := "alice", password := "Abcdef12" }).2
        = .error (400, "Password must be at least 8 characters")
      ∨ (RoutesAuth.signup latin1Classes hashH "tk" db0 0
        { username := "alice", password := "Abcdef12" }).2
        = .error (400, "Password must be at most 72 characters")
      ∨ (RoutesAuth.signup latin1Classes hashH "tk" db0 0
        { username := "alice", password := "Abcdef12" }).2
        = .error (400, "Password must contain at least one lowercase letter, one uppercase letter, and one number")) := by
  have hA := password_validation_characterization latin1Classes hashH "tk" db0 0
    { username := "alice", password := "alllowercase1" } (by decide) (by decide)
  have hB := password_validation_characterization latin1Classes hashH "tk" db0 0
    { username := "alice", password := "nodigitsHere" } (by decide) (by decide)
  have hC := password_validation_characterization latin1Classes hashH "tk" db0 0
    { username := "alice", password := "Short1A" } (by decide) (by decide)
  have hD := password_validation_characterization latin1Classes hashH "tk" db0 0
    { username := "alice", password := "Abcdef12" } (by decide) (by decide)
  refine ⟨hA.1.mpr (by decide), hB.1.mpr (by decide), hC.1.mpr (by decide), ?_⟩
  intro hc
  exact absurd (hD.1.mp hc) (by decide)
